import Mathlib

/-!
Verification of the tool-invocation handler of the n8n-gemini-mcp-server
repository (src/server.js), shallowly embedded in Lean 4.

The embedding models:
* `isValidBase64` — the base64 format check (JS `btoa(atob(s)) === s` after
  stripping an optional `data:image/<subtype>;base64,` prefix), including a
  model of the WHATWG forgiving-base64 decode (`atobDecode`) and the
  canonical base64 encode (`btoa`);
* the `CallToolRequestSchema` handler (`handleCallTool`) as a pure function
  from the request and a `FetchOutcome` oracle (what the single outbound
  `fetch` does) to a `HandlerOutcome` plus the list of HTTP requests issued.
-/

/-! ## Base64: JS `atob` (forgiving-base64 decode) and `btoa` (encode) -/

/-- ASCII whitespace removed by the forgiving-base64 decode
(TAB, LF, FF, CR, SPACE). -/
def isB64Ws (c : Char) : Bool :=
  c = ' ' || c = '\t' || c = '\n' || c = Char.ofNat 12 || c = '\r'

/-- Index of a character in the standard base64 alphabet, if any. -/
def b64Index (c : Char) : Option Nat :=
  if 'A' ≤ c ∧ c ≤ 'Z' then some (c.toNat - 65)
  else if 'a' ≤ c ∧ c ≤ 'z' then some (c.toNat - 71)
  else if '0' ≤ c ∧ c ≤ '9' then some (c.toNat + 4)
  else if c = '+' then some 62
  else if c = '/' then some 63
  else none

/-- Strip one or two trailing `=` padding characters. -/
def stripPad (l : List Char) : List Char :=
  match l.reverse with
  | '=' :: '=' :: r => r.reverse
  | '=' :: r => r.reverse
  | _ => l

/-- Map every character to its alphabet index; fail on a foreign character. -/
def b64IdxList : List Char → Option (List Nat)
  | [] => some []
  | c :: r =>
    match b64Index c, b64IdxList r with
    | some i, some l => some (i :: l)
    | _, _ => none

/-- Bit-accumulating decode loop of forgiving-base64: six bits per index,
three bytes per 24-bit group, leftover bits of a final 12- or 18-bit group
discarded. -/
def b64DecodeLoop : List Nat → Nat → Nat → List Nat
  | [], buffer, bits =>
    if bits = 12 then [buffer / 16]
    else if bits = 18 then [buffer / 1024, buffer / 4 % 256]
    else []
  | i :: rest, buffer, bits =>
    if bits = 18 then
      (buffer * 64 + i) / 65536 :: (buffer * 64 + i) / 256 % 256 ::
        (buffer * 64 + i) % 256 :: b64DecodeLoop rest 0 0
    else b64DecodeLoop rest (buffer * 64 + i) (bits + 6)

/-- JS `atob`: the WHATWG forgiving-base64 decode. Returns `none` where JS
throws `InvalidCharacterError` (caught by `isValidBase64`). -/
def atobDecode (s : String) : Option (List Nat) :=
  let data := s.data.filter (fun c => !(isB64Ws c))
  let data := if data.length % 4 = 0 then stripPad data else data
  if data.length % 4 = 1 then none
  else
    match b64IdxList data with
    | none => none
    | some idxs => some (b64DecodeLoop idxs 0 0)

/-- Character of a six-bit value in the standard base64 alphabet. -/
def b64CharOf (n : Nat) : Char :=
  if n < 26 then Char.ofNat (65 + n)
  else if n < 52 then Char.ofNat (97 + (n - 26))
  else if n < 62 then Char.ofNat (48 + (n - 52))
  else if n = 62 then '+' else '/'

/-- Canonical base64 encoding of a byte list, with `=` padding. -/
def btoaEncodeList : List Nat → List Char
  | [] => []
  | [b1] => [b64CharOf (b1 / 4), b64CharOf (b1 % 4 * 16), '=', '=']
  | [b1, b2] =>
    [b64CharOf (b1 / 4), b64CharOf (b1 % 4 * 16 + b2 / 16),
     b64CharOf (b2 % 16 * 4), '=']
  | b1 :: b2 :: b3 :: rest =>
    b64CharOf (b1 / 4) :: b64CharOf (b1 % 4 * 16 + b2 / 16) ::
      b64CharOf (b2 % 16 * 4 + b3 / 64) :: b64CharOf (b3 % 64) ::
      btoaEncodeList rest

/-- JS `btoa` on a byte list. -/
def btoa (bytes : List Nat) : String :=
  String.mk (btoaEncodeList bytes)

/-! ## The data-URL stripping regex and `isValidBase64` -/

/-- Lowercase ASCII letter (the `[a-z]` class of the stripping regex). -/
def lowerAZ (c : Char) : Bool :=
  'a' ≤ c && c ≤ 'z'

/-- Drop an exact literal from the front of a character list; `none` when the
list does not start with it. -/
def dropExact : List Char → List Char → Option (List Char)
  | l, [] => some l
  | [], _ :: _ => none
  | c :: l, p :: ps => if c = p then dropExact l ps else none

/-- `str.replace(/^data:image\/[a-z]+;base64,/, '')`: strip the anchored
data-URL pattern — literal `data:image/`, a nonempty run of `[a-z]`, then the
literal `;base64,` — and return the input unchanged when it does not match. -/
def stripDataUrl (s : String) : String :=
  match dropExact s.data ("data:image/".data) with
  | none => s
  | some r =>
    let run := r.takeWhile lowerAZ
    let rest := r.dropWhile lowerAZ
    if run.isEmpty then s
    else
      match dropExact rest (";base64,".data) with
      | none => s
      | some tail => String.mk tail

/-- `isValidBase64` of src/server.js: a falsy (empty) string is rejected;
otherwise strip the optional data-URL pattern and require
`btoa(atob(s)) === s` on the remainder, rejecting when `atob` throws. -/
def isValidBase64 (str : String) : Bool :=
  if str = "" then false
  else
    let base64String := stripDataUrl str
    match atobDecode base64String with
    | none => false
    | some bytes => btoa bytes == base64String

/-- The format check as the specification words it (spec §4.2 step 3):
"strip the optional prefix if it matches exactly that pattern; then confirm
the remaining string round-trips through a base64 decode/encode without
alteration" — with no separate guard on the empty input. -/
def specFormatCheck (s : String) : Bool :=
  let r := stripDataUrl s
  match atobDecode r with
  | none => false
  | some bytes => btoa bytes == r

/-! ## Data model of the handler -/

/-- The structured result returned to the caller: text content blocks plus an
error flag (`isError`; absent in JS on the success path, i.e. falsy). -/
structure ToolResult where
  content : List String
  isError : Bool
deriving DecidableEq

/-- The JSON body of the outbound POST (`requestPayload` in src/server.js). -/
structure OutboundPayload where
  image_base64 : String
  prompt : String
  timestamp : String
  source : String
deriving DecidableEq

/-- One outbound HTTP request as issued by `fetch` in src/server.js:
URL, method, the two headers, the payload and the `timeout` option. -/
structure HttpRequest where
  url : String
  method : String
  contentType : String
  userAgent : String
  body : OutboundPayload
  timeoutMs : Nat
deriving DecidableEq

/-- The parsed JSON response of the webhook (`result` in src/server.js).
Fields are optional; JS truthiness is applied where the code applies it. -/
structure WebhookResult where
  success : Option Bool
  generated_image : Option String
  mime_type : Option String
  timestamp : Option String
  error : Option String
deriving DecidableEq

/-- A JS error value as inspected by the catch block: an optional `code`
(e.g. `ECONNREFUSED`) and a `message` (empty string models a falsy one). -/
structure JsError where
  code : Option String
  message : String
deriving DecidableEq

/-- What the single outbound `fetch` does, as an oracle: the promise rejects,
the response has a non-ok status, `response.json()` rejects, or a parsed
`WebhookResult` is obtained. -/
inductive FetchOutcome where
  | netError (e : JsError)
  | httpError (status : Nat) (statusText : String) (bodyText : String)
  | badJson (e : JsError)
  | okJson (result : WebhookResult)
deriving DecidableEq

/-- Outcome of one invocation: either a hard fault thrown to the transport
(the unknown-tool path) or exactly one `ToolResult` returned. -/
inductive HandlerOutcome where
  | fault (message : String)
  | result (r : ToolResult)
deriving DecidableEq

/-! ## Handler constants and helpers -/

def toolName : String := "generate_image_with_gemini"

def missingMsg : String :=
  "Error: Both image_base64 and prompt are required parameters."

def invalidB64Msg : String :=
  "Error: Invalid base64 image format. Please provide a valid base64 encoded image."

def connRefusedMsg : String :=
  "Could not connect to N8N instance. Please check if N8N is running and the webhook URL is correct."

def timedOutMsg : String :=
  "Request timed out. The image generation process may take longer than expected."

def unknownErrMsg : String := "Unknown error occurred"

def checklistMsg : String :=
  "\n\nPlease check:\n- N8N instance is running\n- Webhook URL is correct\n- Google Cloud credentials are configured\n- Vertex AI API is enabled"

/-- JS truthiness of an optional string argument: absent or empty is falsy. -/
def truthyOptStr : Option String → Bool
  | none => false
  | some s => !(s == "")

/-- JS `o || d` for an optional string: the string when present and
non-empty, else the default. -/
def jsOr (o : Option String) (d : String) : String :=
  match o with
  | some s => if s == "" then d else s
  | none => d

/-- JS template interpolation of a possibly-absent string: `undefined` is
rendered literally. -/
def jsShow (o : Option String) : String :=
  match o with
  | some s => s
  | none => "undefined"

/-- Substring test on character lists (JS `String.prototype.includes`). -/
def hasSub (pat : List Char) : List Char → Bool
  | [] => pat.isPrefixOf []
  | c :: t => pat.isPrefixOf (c :: t) || hasSub pat t

/-- JS `s.includes(pat)`. -/
def includesB (s pat : String) : Bool :=
  hasSub pat.data s.data

/-- The message of the error thrown on a non-ok HTTP status
(src/server.js line 160). -/
def webhookFailMsg (status : Nat) (statusText : String) : String :=
  "N8N webhook failed: " ++ toString status ++ " " ++ statusText

/-- The cause-specific clause selected by the catch block
(src/server.js lines 200-210), appended to `"Image generation failed: "`. -/
def jsErrorClause (e : JsError) : String :=
  if e.code == some "ECONNREFUSED" then connRefusedMsg
  else if e.code == some "ETIMEDOUT" then timedOutMsg
  else if includesB e.message "webhook failed" then e.message
  else if e.message == "" then unknownErrMsg
  else e.message

/-- The error `ToolResult` built by the catch block (src/server.js
lines 212-220). -/
def catchHandler (e : JsError) : ToolResult :=
  { content := ["❌ " ++ ("Image generation failed: " ++ jsErrorClause e) ++ checklistMsg],
    isError := true }

/-- The success-path text (src/server.js line 178). -/
def successText (r : WebhookResult) : String :=
  "✅ Image generation completed successfully!\n\n**Generated Image**: " ++
    (if truthyOptStr r.generated_image then "Ready" else "Not available") ++
    "\n**Format**: " ++ jsOr r.mime_type "image/png" ++
    "\n**Processed at**: " ++ jsShow r.timestamp ++
    "\n\nThe generated image is available as base64 data."

/-- Translation of the fetch outcome into the returned `ToolResult`
(src/server.js lines 153-221): a non-ok status throws the webhook-failed
error into the catch block, a rejected fetch or JSON parse reaches the catch
block directly, and a parsed result is split on the truthiness of
`result.success`. -/
def translateOutcome : FetchOutcome → ToolResult
  | .httpError status statusText _ =>
    catchHandler { code := none, message := webhookFailMsg status statusText }
  | .netError e => catchHandler e
  | .badJson e => catchHandler e
  | .okJson r =>
    if r.success == some true then
      { content := [successText r], isError := false }
    else
      { content := ["❌ Image generation failed: " ++ jsOr r.error unknownErrMsg],
        isError := true }

/-- The single outbound request built by the handler (src/server.js
lines 136-151). -/
def outboundReq (img prm now url : String) : HttpRequest :=
  { url := url
    method := "POST"
    contentType := "application/json"
    userAgent := "N8N-Gemini-MCP-Server/1.0.0"
    body := { image_base64 := img, prompt := prm, timestamp := now,
              source := "claude-desktop-mcp" }
    timeoutMs := 60000 }

/-- The `CallToolRequestSchema` handler (src/server.js lines 92-222) as a
pure function. `now` is the ISO timestamp taken at call time, `url` the
configured webhook URL, `oc` what the outbound fetch does. The second
component lists the HTTP requests issued during the invocation. -/
def handleCallTool (name : String) (image_base64 prompt : Option String)
    (now url : String) (oc : FetchOutcome) : HandlerOutcome × List HttpRequest :=
  if name ≠ toolName then
    (.fault ("Unknown tool: " ++ name), [])
  else if !(truthyOptStr image_base64 && truthyOptStr prompt) then
    (.result { content := [missingMsg], isError := true }, [])
  else if !(isValidBase64 (image_base64.getD "")) then
    (.result { content := [invalidB64Msg], isError := true }, [])
  else
    (.result (translateOutcome oc),
     [outboundReq (image_base64.getD "") (prompt.getD "") now url])

/-! ## Helper lemmas -/

theorem dropExact_append (p l : List Char) : dropExact (p ++ l) p = some l := by
  induction p with
  | nil => simp [dropExact]
  | cons c cs ih => simp [dropExact, ih]

theorem takeWhile_run (f : Char → Bool) (a : List Char) (ha : ∀ c ∈ a, f c = true)
    (c : Char) (hc : f c = false) (b : List Char) :
    (a ++ c :: b).takeWhile f = a ∧ (a ++ c :: b).dropWhile f = c :: b := by
  induction a with
  | nil => simp [List.takeWhile, List.dropWhile, hc]
  | cons x xs ih =>
    have hx : f x = true := ha x (by simp)
    have h' := ih (fun d hd => ha d (by simp [hd]))
    simp [List.takeWhile, List.dropWhile, hx, h'.1, h'.2]

theorem isPrefixOf_append_self (p b : List Char) : p.isPrefixOf (p ++ b) = true := by
  induction p with
  | nil => simp [List.isPrefixOf]
  | cons c cs ih => simp [List.isPrefixOf, ih]

theorem hasSub_of_isPre (p l : List Char) (h : p.isPrefixOf l = true) :
    hasSub p l = true := by
  cases l with
  | nil => simpa [hasSub] using h
  | cons c t => simp [hasSub, h]

theorem hasSub_append_left (p t : List Char) (h : hasSub p t = true) (a : List Char) :
    hasSub p (a ++ t) = true := by
  induction a with
  | nil => simpa using h
  | cons x xs ih => simp [hasSub, ih]

theorem isPrefixOf_extend (p : List Char) : ∀ m, p.isPrefixOf m = true →
    ∀ t, p.isPrefixOf (m ++ t) = true := by
  induction p with
  | nil => intro m _ t; simp [List.isPrefixOf]
  | cons a ps ih =>
    intro m h t
    cases m with
    | nil => simp [List.isPrefixOf] at h
    | cons b ms =>
      simp only [List.isPrefixOf, List.cons_append, Bool.and_eq_true] at h ⊢
      exact ⟨h.1, ih ms h.2 t⟩

theorem hasSub_nil_pat (l : List Char) : hasSub [] l = true := by
  cases l <;> simp [hasSub, List.isPrefixOf]

theorem hasSub_append_right (p l : List Char) (h : hasSub p l = true)
    (t : List Char) : hasSub p (l ++ t) = true := by
  induction l with
  | nil =>
    have hp : p = [] := by
      cases p with
      | nil => rfl
      | cons c cs => simp [hasSub, List.isPrefixOf] at h
    subst hp
    exact hasSub_nil_pat t
  | cons c l ih =>
    rw [hasSub] at h
    rcases Bool.or_eq_true_iff.mp h with h' | h'
    · rw [List.cons_append, hasSub]
      have : p.isPrefixOf (c :: (l ++ t)) = true := by
        have := isPrefixOf_extend p (c :: l) h' t
        simpa using this
      simp [this]
    · rw [List.cons_append, hasSub]
      simp [ih h']

theorem data_eq_nil_iff (s : String) : s.data = [] ↔ s = "" := by
  constructor
  · intro h
    apply String.ext
    simpa using h
  · intro h
    subst h
    rfl

/-! ## Claims -/

/-- C1: for every invocation request whose tool name is
`generate_image_with_gemini` the handler returns exactly one `ToolResult`
(its outcome is `HandlerOutcome.result` with a single result, never a fault);
for every other tool name it throws the hard `Unknown tool` fault to the
transport and returns no `ToolResult`. -/
theorem c1_one_result_or_fault (name : String) (img prm : Option String)
    (now url : String) (oc : FetchOutcome) :
    (name = toolName →
      ∃ r, (handleCallTool name img prm now url oc).1 = HandlerOutcome.result r) ∧
    (name ≠ toolName →
      handleCallTool name img prm now url oc =
        (HandlerOutcome.fault ("Unknown tool: " ++ name), [])) := by
  constructor
  · intro h
    subst h
    unfold handleCallTool
    by_cases h1 : (truthyOptStr img && truthyOptStr prm) = true
    · by_cases h2 : isValidBase64 (img.getD "") = true
      · exact ⟨translateOutcome oc, by simp [h1, h2]⟩
      · exact ⟨{ content := [invalidB64Msg], isError := true }, by simp [h1, h2]⟩
    · exact ⟨{ content := [missingMsg], isError := true }, by simp [h1]⟩
  · intro h
    simp [handleCallTool, h]

theorem c1_witness :
    (∃ r, (handleCallTool toolName (some "QQ==") (some "p") "t" "u"
        (FetchOutcome.okJson ⟨some true, none, none, none, none⟩)).1 =
        HandlerOutcome.result r) ∧
    handleCallTool "other_tool" (some "QQ==") (some "p") "t" "u"
        (FetchOutcome.okJson ⟨some true, none, none, none, none⟩) =
      (HandlerOutcome.fault ("Unknown tool: " ++ "other_tool"), []) :=
  ⟨(c1_one_result_or_fault toolName (some "QQ==") (some "p") "t" "u"
      (FetchOutcome.okJson ⟨some true, none, none, none, none⟩)).1 rfl,
   (c1_one_result_or_fault "other_tool" (some "QQ==") (some "p") "t" "u"
      (FetchOutcome.okJson ⟨some true, none, none, none, none⟩)).2 (by decide)⟩

/-- C2 counterexample: the empty string round-trips through the spec's
strip-then-decode/encode check (`specFormatCheck "" = true`), yet
`isValidBase64` rejects it through its falsy-input guard, so the format check
is not exactly "accept iff the remaining string round-trips", and not every
valid canonical base64 string passes. -/
theorem c2_counterexample : specFormatCheck "" = true ∧ isValidBase64 "" = false := by
  decide

/-- C2 (amended): for every nonempty input string the format check agrees
exactly with the spec's strip-then-round-trip check, and whenever the check
rejects, the handler returns the exact invalid-base64 error `ToolResult` and
issues no outbound call. (The empty string alone is rejected by the code's
falsy-input guard before the round-trip is consulted.) -/
theorem c2_format_check (s : String) (hs : s ≠ "") :
    isValidBase64 s = specFormatCheck s ∧
    (∀ (prm : Option String) (now url : String) (oc : FetchOutcome),
      truthyOptStr prm = true → isValidBase64 s = false →
      handleCallTool toolName (some s) prm now url oc =
        (HandlerOutcome.result { content := [invalidB64Msg], isError := true }, [])) := by
  constructor
  · simp [isValidBase64, specFormatCheck, hs]
  · intro prm now url oc hp hinv
    have hts : truthyOptStr (some s) = true := by simp [truthyOptStr, hs]
    simp [handleCallTool, hts, hp, hinv]

theorem c2_format_check_witness :
    isValidBase64 "not-base64!!" = specFormatCheck "not-base64!!" ∧
    handleCallTool toolName (some "not-base64!!") (some "p") "t" "u"
        (FetchOutcome.okJson ⟨some true, none, none, none, none⟩) =
      (HandlerOutcome.result { content := [invalidB64Msg], isError := true }, []) :=
  ⟨(c2_format_check "not-base64!!" (by decide)).1,
   (c2_format_check "not-base64!!" (by decide)).2 (some "p") "t" "u"
     (FetchOutcome.okJson ⟨some true, none, none, none, none⟩) (by decide) (by decide)⟩

/-- C3: every invocation that passes validation issues exactly one HTTP POST
to the configured URL with JSON content type, the identifying user agent, the
payload `{image_base64, prompt, timestamp, source}` with the fixed source tag
`claude-desktop-mcp`, and the 60-second timeout option. -/
theorem c3_outbound_call (img prm now url : String) (oc : FetchOutcome)
    (h1 : img ≠ "") (h2 : prm ≠ "") (h3 : isValidBase64 img = true) :
    (handleCallTool toolName (some img) (some prm) now url oc).2 =
      [outboundReq img prm now url] ∧
    (outboundReq img prm now url).url = url ∧
    (outboundReq img prm now url).method = "POST" ∧
    (outboundReq img prm now url).contentType = "application/json" ∧
    (outboundReq img prm now url).userAgent = "N8N-Gemini-MCP-Server/1.0.0" ∧
    (outboundReq img prm now url).body =
      { image_base64 := img, prompt := prm, timestamp := now,
        source := "claude-desktop-mcp" } ∧
    (outboundReq img prm now url).timeoutMs = 60000 := by
  refine ⟨?_, rfl, rfl, rfl, rfl, rfl, rfl⟩
  simp [handleCallTool, truthyOptStr, h1, h2, h3]

theorem c3_outbound_call_witness :
    (handleCallTool toolName (some "QQ==") (some "p") "t" "u"
        (FetchOutcome.okJson ⟨some true, none, none, none, none⟩)).2 =
      [outboundReq "QQ==" "p" "t" "u"] :=
  (c3_outbound_call "QQ==" "p" "t" "u"
    (FetchOutcome.okJson ⟨some true, none, none, none, none⟩)
    (by decide) (by decide) (by decide)).1

/-- C4: when `image_base64` or `prompt` is absent or the empty string, the
known tool returns the exact missing-parameters error `ToolResult` and no
outbound HTTP request is issued. -/
theorem c4_missing_params (img prm : Option String) (now url : String)
    (oc : FetchOutcome)
    (h : img = none ∨ img = some "" ∨ prm = none ∨ prm = some "") :
    handleCallTool toolName img prm now url oc =
      (HandlerOutcome.result { content := [missingMsg], isError := true }, []) := by
  rcases h with h | h | h | h <;> subst h <;>
    simp [handleCallTool, truthyOptStr]

theorem c4_missing_params_witness :
    handleCallTool toolName none (some "p") "t" "u"
        (FetchOutcome.okJson ⟨some true, none, none, none, none⟩) =
      (HandlerOutcome.result { content := [missingMsg], isError := true }, []) :=
  c4_missing_params none (some "p") "t" "u"
    (FetchOutcome.okJson ⟨some true, none, none, none, none⟩) (Or.inl rfl)

theorem semi_b64_data : (";base64,".data) = ';' :: "base64,".data := by decide

theorem stripDataUrl_data_url (sub p : String) (hsub : sub ≠ "")
    (hlower : ∀ c ∈ sub.data, lowerAZ c = true) :
    stripDataUrl ("data:image/" ++ sub ++ (";base64," ++ p)) = p := by
  have h1 : ("data:image/" ++ sub ++ (";base64," ++ p)).data
      = "data:image/".data ++ (sub.data ++ (';' :: ("base64,".data ++ p.data))) := by
    simp [String.data_append, semi_b64_data, List.append_assoc]
  have hrun := takeWhile_run lowerAZ sub.data hlower ';' (by decide)
    ("base64,".data ++ p.data)
  have hne : sub.data ≠ [] := fun h => hsub ((data_eq_nil_iff sub).mp h)
  unfold stripDataUrl
  rw [h1, dropExact_append]
  simp only [hrun.1, hrun.2]
  rw [if_neg (by simpa [List.isEmpty_iff] using hne)]
  rw [show (';' :: ("base64,".data ++ p.data)) = ";base64,".data ++ p.data by
    rw [semi_b64_data]; rfl]
  rw [dropExact_append]

/-- C5: for every input of the form `data:image/<subtype>;base64,<payload>`
with a nonempty lowercase subtype and a payload that round-trips through
decode/encode, the format check strips exactly the prefix, validation passes,
and the outbound payload carries the caller-supplied string unchanged
(prefix included). -/
theorem c5_data_url_validation (sub p : String) (hsub : sub ≠ "")
    (hlower : ∀ c ∈ sub.data, lowerAZ c = true)
    (bytes : List Nat) (hdec : atobDecode p = some bytes) (henc : btoa bytes = p)
    (prm now url : String) (hprm : prm ≠ "") (oc : FetchOutcome) :
    stripDataUrl ("data:image/" ++ sub ++ (";base64," ++ p)) = p ∧
    isValidBase64 ("data:image/" ++ sub ++ (";base64," ++ p)) = true ∧
    handleCallTool toolName (some ("data:image/" ++ sub ++ (";base64," ++ p)))
        (some prm) now url oc =
      (HandlerOutcome.result (translateOutcome oc),
       [outboundReq ("data:image/" ++ sub ++ (";base64," ++ p)) prm now url]) := by
  have hstrip := stripDataUrl_data_url sub p hsub hlower
  have hfullne : ("data:image/" ++ sub ++ (";base64," ++ p)) ≠ "" := by
    intro h
    have h2 := (data_eq_nil_iff _).mpr h
    simp only [String.data_append, List.append_eq_nil] at h2
    exact absurd h2.1.1 (by decide)
  have hvalid : isValidBase64 ("data:image/" ++ sub ++ (";base64," ++ p)) = true := by
    unfold isValidBase64
    rw [if_neg hfullne]
    simp only [hstrip, hdec, henc, beq_self_eq_true]
  refine ⟨hstrip, hvalid, ?_⟩
  have hts : truthyOptStr (some ("data:image/" ++ sub ++ (";base64," ++ p))) = true := by
    simp [truthyOptStr, hfullne]
  have htp : truthyOptStr (some prm) = true := by simp [truthyOptStr, hprm]
  simp [handleCallTool, hts, htp, hvalid]

theorem c5_data_url_validation_witness :
    stripDataUrl ("data:image/" ++ "png" ++ (";base64," ++ "QQ==")) = "QQ==" ∧
    isValidBase64 ("data:image/" ++ "png" ++ (";base64," ++ "QQ==")) = true ∧
    handleCallTool toolName (some ("data:image/" ++ "png" ++ (";base64," ++ "QQ==")))
        (some "x") "t" "u"
        (FetchOutcome.okJson ⟨some true, none, none, none, none⟩) =
      (HandlerOutcome.result
        (translateOutcome (FetchOutcome.okJson ⟨some true, none, none, none, none⟩)),
       [outboundReq ("data:image/" ++ "png" ++ (";base64," ++ "QQ==")) "x" "t" "u"]) :=
  c5_data_url_validation "png" "QQ==" (by decide) (by decide) [65] (by decide)
    (by decide) "x" "t" "u" (by decide)
    (FetchOutcome.okJson ⟨some true, none, none, none, none⟩)

/-- C6 counterexample: for the parsed response
`{success: false, error: "quota exceeded"}` the returned text is
`❌ Image generation failed: quota exceeded` — it carries a leading emoji
marker, so it is not the string `Image generation failed: ` followed by the
reported error, as the claim states. -/
theorem c6_counterexample :
    (handleCallTool toolName (some "QQ==") (some "p") "t" "u"
        (FetchOutcome.okJson ⟨some false, none, none, none, some "quota exceeded"⟩)).1 =
      HandlerOutcome.result
        { content := ["❌ Image generation failed: quota exceeded"], isError := true } ∧
    "❌ Image generation failed: quota exceeded" ≠
      "Image generation failed: " ++ "quota exceeded" := by
  decide

/-- C6 (amended): for every parsed response in which `success` is not `true`
(false or absent), the handler returns an error `ToolResult` whose text is
`❌ Image generation failed: ` followed by `result.error` when present and
nonempty and by `Unknown error occurred` otherwise. -/
theorem c6_failure_translation (r : WebhookResult) (hr : ¬ r.success = some true)
    (img prm now url : String) (h1 : img ≠ "") (h2 : prm ≠ "")
    (h3 : isValidBase64 img = true) :
    handleCallTool toolName (some img) (some prm) now url (FetchOutcome.okJson r) =
      (HandlerOutcome.result
        { content := ["❌ Image generation failed: " ++ jsOr r.error unknownErrMsg],
          isError := true },
       [outboundReq img prm now url]) ∧
    (∀ e, r.error = some e → e ≠ "" → jsOr r.error unknownErrMsg = e) ∧
    ((r.error = none ∨ r.error = some "") →
      jsOr r.error unknownErrMsg = unknownErrMsg) := by
  refine ⟨?_, ?_, ?_⟩
  · have hts : truthyOptStr (some img) = true := by simp [truthyOptStr, h1]
    have htp : truthyOptStr (some prm) = true := by simp [truthyOptStr, h2]
    have hsf : (r.success == some true) = false := by
      cases hs : r.success with
      | none => rfl
      | some b => cases b <;> simp_all
    simp [handleCallTool, hts, htp, h3, translateOutcome, hsf]
  · intro e he hne
    simp [jsOr, he, hne]
  · rintro (he | he) <;> simp [jsOr, he, unknownErrMsg]

theorem c6_failure_translation_witness :
    handleCallTool toolName (some "QQ==") (some "p") "t" "u"
        (FetchOutcome.okJson ⟨some false, none, none, none, some "quota exceeded"⟩) =
      (HandlerOutcome.result
        { content := ["❌ Image generation failed: " ++
            jsOr (some "quota exceeded") unknownErrMsg],
          isError := true },
       [outboundReq "QQ==" "p" "t" "u"]) :=
  (c6_failure_translation ⟨some false, none, none, none, some "quota exceeded"⟩
    (by decide) "QQ==" "p" "t" "u" (by decide) (by decide) (by decide)).1

/-- C7: for every parsed response with `success: true`, the handler returns a
`ToolResult` whose error flag is not set and whose single text block is the
completion summary; that text carries the default MIME type `image/png` when
`mime_type` is absent and carries the reported timestamp verbatim. -/
theorem c7_success_translation (r : WebhookResult) (hr : r.success = some true)
    (img prm now url : String) (h1 : img ≠ "") (h2 : prm ≠ "")
    (h3 : isValidBase64 img = true) :
    handleCallTool toolName (some img) (some prm) now url (FetchOutcome.okJson r) =
      (HandlerOutcome.result { content := [successText r], isError := false },
       [outboundReq img prm now url]) ∧
    (r.mime_type = none →
      hasSub ("image/png".data) (successText r).data = true) ∧
    (∀ ts, r.timestamp = some ts →
      hasSub ts.data (successText r).data = true) := by
  refine ⟨?_, ?_, ?_⟩
  · have hts : truthyOptStr (some img) = true := by simp [truthyOptStr, h1]
    have htp : truthyOptStr (some prm) = true := by simp [truthyOptStr, h2]
    simp [handleCallTool, hts, htp, h3, translateOutcome, hr]
  · intro hm
    simp only [successText, hm, jsOr, String.data_append, List.append_assoc]
    refine hasSub_append_left _ _ ?_ _
    refine hasSub_append_left _ _ ?_ _
    refine hasSub_append_left _ _ ?_ _
    exact hasSub_of_isPre _ _ (isPrefixOf_append_self _ _)
  · intro ts hts
    simp only [successText, hts, jsShow, String.data_append, List.append_assoc]
    refine hasSub_append_left _ _ ?_ _
    refine hasSub_append_left _ _ ?_ _
    refine hasSub_append_left _ _ ?_ _
    refine hasSub_append_left _ _ ?_ _
    refine hasSub_append_left _ _ ?_ _
    exact hasSub_of_isPre _ _ (isPrefixOf_append_self _ _)

theorem c7_success_translation_witness :
    handleCallTool toolName (some "QQ==") (some "p") "t" "u"
        (FetchOutcome.okJson
          ⟨some true, some "abc", some "image/png", some "2024-01-01T00:00:00Z", none⟩) =
      (HandlerOutcome.result
        { content := [successText
            ⟨some true, some "abc", some "image/png", some "2024-01-01T00:00:00Z", none⟩],
          isError := false },
       [outboundReq "QQ==" "p" "t" "u"]) ∧
    hasSub ("2024-01-01T00:00:00Z".data)
      (successText
        ⟨some true, some "abc", some "image/png", some "2024-01-01T00:00:00Z", none⟩).data
      = true :=
  ⟨(c7_success_translation
      ⟨some true, some "abc", some "image/png", some "2024-01-01T00:00:00Z", none⟩
      rfl "QQ==" "p" "t" "u" (by decide) (by decide) (by decide)).1,
   (c7_success_translation
      ⟨some true, some "abc", some "image/png", some "2024-01-01T00:00:00Z", none⟩
      rfl "QQ==" "p" "t" "u" (by decide) (by decide) (by decide)).2.2
     "2024-01-01T00:00:00Z" rfl⟩

/-- C8: for every non-ok HTTP status the thrown message is
`N8N webhook failed: <status> <statusText>`; it contains `webhook failed`,
so the catch block passes it through unchanged inside the error
`ToolResult`. -/
theorem c8_http_status_failure (status : Nat) (statusText bodyText : String)
    (img prm now url : String) (h1 : img ≠ "") (h2 : prm ≠ "")
    (h3 : isValidBase64 img = true) :
    handleCallTool toolName (some img) (some prm) now url
        (FetchOutcome.httpError status statusText bodyText) =
      (HandlerOutcome.result
        { content := ["❌ " ++ ("Image generation failed: " ++
            webhookFailMsg status statusText) ++ checklistMsg],
          isError := true },
       [outboundReq img prm now url]) ∧
    includesB (webhookFailMsg status statusText) "webhook failed" = true := by
  have hinc : includesB (webhookFailMsg status statusText) "webhook failed" = true := by
    unfold includesB webhookFailMsg
    rw [String.data_append, String.data_append, String.data_append]
    have h0 : hasSub ("webhook failed".data) ("N8N webhook failed: ".data) = true := by
      decide
    exact hasSub_append_right _ _
      (hasSub_append_right _ _ (hasSub_append_right _ _ h0 _) _) _
  refine ⟨?_, hinc⟩
  have hts : truthyOptStr (some img) = true := by simp [truthyOptStr, h1]
  have htp : truthyOptStr (some prm) = true := by simp [truthyOptStr, h2]
  have hclause : jsErrorClause { code := none, message := webhookFailMsg status statusText }
      = webhookFailMsg status statusText := by
    simp [jsErrorClause, includesB] at hinc ⊢
    simp [hinc]
  simp [handleCallTool, hts, htp, h3, translateOutcome, catchHandler, hclause]

theorem c8_http_status_failure_witness :
    handleCallTool toolName (some "QQ==") (some "p") "t" "u"
        (FetchOutcome.httpError 500 "Internal Server Error" "boom") =
      (HandlerOutcome.result
        { content := ["❌ " ++ ("Image generation failed: " ++
            webhookFailMsg 500 "Internal Server Error") ++ checklistMsg],
          isError := true },
       [outboundReq "QQ==" "p" "t" "u"]) ∧
    includesB (webhookFailMsg 500 "Internal Server Error") "webhook failed" = true :=
  c8_http_status_failure 500 "Internal Server Error" "boom" "QQ==" "p" "t" "u"
    (by decide) (by decide) (by decide)

/-- C9: every failure thrown during the outbound call or response translation
(a rejected fetch or a rejected JSON parse) is caught and mapped to an error
`ToolResult` whose message is `Image generation failed: ` followed by the
cause-specific clause — the fixed connection-refused text for `ECONNREFUSED`,
the fixed timed-out text for `ETIMEDOUT`, otherwise the raw error message or
`Unknown error occurred` when it is empty — and whose text ends with the
fixed four-item checklist. -/
theorem c9_catch_translation (e : JsError) (img prm now url : String)
    (h1 : img ≠ "") (h2 : prm ≠ "") (h3 : isValidBase64 img = true) :
    handleCallTool toolName (some img) (some prm) now url (FetchOutcome.netError e) =
      (HandlerOutcome.result
        { content := ["❌ " ++ ("Image generation failed: " ++ jsErrorClause e) ++
            checklistMsg],
          isError := true },
       [outboundReq img prm now url]) ∧
    handleCallTool toolName (some img) (some prm) now url (FetchOutcome.badJson e) =
      (HandlerOutcome.result
        { content := ["❌ " ++ ("Image generation failed: " ++ jsErrorClause e) ++
            checklistMsg],
          isError := true },
       [outboundReq img prm now url]) ∧
    (e.code = some "ECONNREFUSED" → jsErrorClause e = connRefusedMsg) ∧
    (e.code ≠ some "ECONNREFUSED" → e.code = some "ETIMEDOUT" →
      jsErrorClause e = timedOutMsg) ∧
    (e.code ≠ some "ECONNREFUSED" → e.code ≠ some "ETIMEDOUT" →
      jsErrorClause e = if e.message = "" then unknownErrMsg else e.message) := by
  have hts : truthyOptStr (some img) = true := by simp [truthyOptStr, h1]
  have htp : truthyOptStr (some prm) = true := by simp [truthyOptStr, h2]
  refine ⟨?_, ?_, ?_, ?_, ?_⟩
  · simp [handleCallTool, hts, htp, h3, translateOutcome, catchHandler]
  · simp [handleCallTool, hts, htp, h3, translateOutcome, catchHandler]
  · intro hc
    simp [jsErrorClause, hc]
  · intro hc1 hc2
    have b1 : (e.code == some "ECONNREFUSED") = false := by
      rw [beq_eq_false_iff_ne]
      exact hc1
    simp [jsErrorClause, b1, hc2]
  · intro hc1 hc2
    have b1 : (e.code == some "ECONNREFUSED") = false := by
      rw [beq_eq_false_iff_ne]
      exact hc1
    have b2 : (e.code == some "ETIMEDOUT") = false := by
      rw [beq_eq_false_iff_ne]
      exact hc2
    by_cases hm : e.message = ""
    · rw [if_pos hm]
      have hw0 : includesB "" "webhook failed" = false := by decide
      simp [jsErrorClause, b1, b2, hm, hw0]
    · rw [if_neg hm]
      by_cases hw : includesB e.message "webhook failed" = true
      · simp [jsErrorClause, b1, b2, hw]
      · have hw' : includesB e.message "webhook failed" = false := by
          cases h : includesB e.message "webhook failed" <;> simp_all
        have hb : (e.message == "") = false := by
          rw [beq_eq_false_iff_ne]
          exact hm
        simp [jsErrorClause, b1, b2, hw', hb]

theorem c9_catch_translation_witness :
    handleCallTool toolName (some "QQ==") (some "p") "t" "u"
        (FetchOutcome.netError ⟨some "ECONNREFUSED", "fetch failed"⟩) =
      (HandlerOutcome.result
        { content := ["❌ " ++ ("Image generation failed: " ++
            jsErrorClause ⟨some "ECONNREFUSED", "fetch failed"⟩) ++ checklistMsg],
          isError := true },
       [outboundReq "QQ==" "p" "t" "u"]) ∧
    jsErrorClause ⟨some "ECONNREFUSED", "fetch failed"⟩ = connRefusedMsg :=
  ⟨(c9_catch_translation ⟨some "ECONNREFUSED", "fetch failed"⟩ "QQ==" "p" "t" "u"
      (by decide) (by decide) (by decide)).1,
   (c9_catch_translation ⟨some "ECONNREFUSED", "fetch failed"⟩ "QQ==" "p" "t" "u"
      (by decide) (by decide) (by decide)).2.2.1 rfl⟩

/-- C10 (implicit behavior): the prefix-only input `data:image/png;base64,`
passes the presence check (it is non-empty, hence truthy), passes the format
check (the remaining empty string round-trips), and the outbound call is
made carrying the prefix-only string as `image_base64`. -/
theorem c10_prefix_only_data_url (prm now url : String) (hprm : prm ≠ "")
    (oc : FetchOutcome) :
    truthyOptStr (some "data:image/png;base64,") = true ∧
    isValidBase64 "data:image/png;base64," = true ∧
    handleCallTool toolName (some "data:image/png;base64,") (some prm) now url oc =
      (HandlerOutcome.result (translateOutcome oc),
       [outboundReq "data:image/png;base64," prm now url]) := by
  have ht : truthyOptStr (some "data:image/png;base64,") = true := by decide
  have hv : isValidBase64 "data:image/png;base64," = true := by decide
  have htp : truthyOptStr (some prm) = true := by simp [truthyOptStr, hprm]
  refine ⟨ht, hv, ?_⟩
  simp [handleCallTool, ht, htp, hv]

theorem c10_prefix_only_data_url_witness :
    truthyOptStr (some "data:image/png;base64,") = true ∧
    isValidBase64 "data:image/png;base64," = true ∧
    handleCallTool toolName (some "data:image/png;base64,") (some "p") "t" "u"
        (FetchOutcome.okJson ⟨some true, none, none, none, none⟩) =
      (HandlerOutcome.result
        (translateOutcome (FetchOutcome.okJson ⟨some true, none, none, none, none⟩)),
       [outboundReq "data:image/png;base64," "p" "t" "u"]) :=
  c10_prefix_only_data_url "p" "t" "u" (by decide)
    (FetchOutcome.okJson ⟨some true, none, none, none, none⟩)
